import Mathlib

/-!
Shallow embedding of `src/weasyprint-service/main.py`, a FastAPI microservice
that authenticates an optional bearer token, splices custom CSS into an HTML
string, delegates rendering to an external collaborator, and serializes the
resulting PDF bytes either raw or base64-encoded.
-/

/-! ## Python string semantics helpers -/

/-- Whitespace characters recognised by Python `str.split()` (ASCII part). -/
def isPySpace (c : Char) : Bool :=
  c == ' ' || c == '\t' || c == '\n' || c == '\r' || c == '\x0b' || c == '\x0c'

/-- Worker for Python `str.split()` with no separator: split on runs of
whitespace, discarding leading and trailing whitespace.  `acc` holds the
characters of the current word, reversed. -/
def splitWSAux : List Char → List Char → List (List Char)
  | [], acc => if acc.isEmpty then [] else [acc.reverse]
  | c :: rest, acc =>
    if isPySpace c then
      if acc.isEmpty then splitWSAux rest []
      else acc.reverse :: splitWSAux rest []
    else splitWSAux rest (c :: acc)

/-- Python `s.split()` (no argument): split on whitespace runs. -/
def pySplit (s : String) : List String :=
  (splitWSAux s.data []).map fun l => String.mk l

/-- Fuel-indexed worker for Python `str.replace`: replace every (leftmost,
non-overlapping) occurrence of `pat` by `repl`.  Fuel at least the length of
the input suffices. -/
def replaceAllFuel (pat repl : List Char) : Nat → List Char → List Char
  | _, [] => []
  | 0, l => l
  | fuel + 1, c :: rest =>
    if pat.isPrefixOf (c :: rest) && !pat.isEmpty then
      repl ++ replaceAllFuel pat repl fuel ((c :: rest).drop pat.length)
    else
      c :: replaceAllFuel pat repl fuel rest

/-- Replace every occurrence of `pat` by `repl` in `l` (Python `str.replace`
restricted to non-empty patterns, which is how the service uses it). -/
def replaceAll (pat repl l : List Char) : List Char :=
  replaceAllFuel pat repl l.length l

/-- Python `s.replace(pat, repl)`. -/
def pyReplace (s pat repl : String) : String :=
  String.mk (replaceAll pat.data repl.data s.data)

/-- Does `pat` occur as a contiguous sublist? -/
def containsSub (pat : List Char) : List Char → Bool
  | [] => pat.isEmpty
  | c :: rest => pat.isPrefixOf (c :: rest) || containsSub pat rest

/-- Python `pat in s` substring test. -/
def pyContains (s pat : String) : Bool :=
  containsSub pat.data s.data

/-- Python truthiness of an optional string: `None` and `""` are falsy. -/
def pyTruthy : Option String → Bool
  | none => false
  | some s => !(s == "")

/-- Python `str.lower()` on one character (ASCII range). -/
def pyLowerChar (c : Char) : Char :=
  if 'A' ≤ c && c ≤ 'Z' then Char.ofNat (c.toNat + 32) else c

/-- Python `s.lower()` (ASCII range). -/
def pyLower (s : String) : String :=
  String.mk (s.data.map pyLowerChar)

/-! ## The service (embedding of `main.py`) -/

/-- Python `hmac.compare_digest` on two strings: constant-time equality test.
Its observable result is plain equality. -/
def hmac_compare_digest (a b : String) : Bool :=
  a == b

/-- `verify_api_key` (main.py lines 61-77): check the `Authorization` header
against the configured key.  `None` and the empty string are falsy in Python,
hence rejected up front; otherwise the header is whitespace-split, must have
exactly two parts, the first lowercasing to `bearer`, the second equal to the
configured key. -/
def verify_api_key (api_key : String) (authorization : Option String) : Bool :=
  match authorization with
  | none => false
  | some s =>
    if s = "" then false
    else
      match pySplit s with
      | [p0, p1] =>
        if pyLower p0 ≠ "bearer" then false
        else hmac_compare_digest p1 api_key
      | _ => false

/-- Request model `PDFRequest` (main.py lines 47-58). -/
structure PDFRequest where
  htmlContent : String
  customCss : Option String
deriving DecidableEq, Repr

/-- Result of a handler: either a successful payload or an HTTP error
(`HTTPException`) with a status code and a detail message. -/
inductive HandlerResult (α : Type) where
  | ok : α → HandlerResult α
  | httpError : (status : Nat) → (detail : String) → HandlerResult α
deriving DecidableEq, Repr

/-- The external rendering collaborator (`weasyprint.HTML(string=..).write_pdf()`):
from a final HTML string, either PDF bytes or an exception message. -/
def Renderer : Type :=
  String → Except String (List Nat)

/-- The CSS-injection transform (main.py lines 139-147 and, identically,
194-201): if `customCss` is truthy, build `css_tag` and splice it in, first
trying `</head>`, then `<body>`, else wrapping the whole document. -/
def inject_css (htmlContent : String) (customCss : Option String) : String :=
  match customCss with
  | none => htmlContent
  | some css =>
    if css = "" then htmlContent
    else
      let css_tag := "<style>" ++ css ++ "</style>"
      if pyContains htmlContent "</head>" then
        pyReplace htmlContent "</head>" (css_tag ++ "</head>")
      else if pyContains htmlContent "<body>" then
        pyReplace htmlContent "<body>" ("<head>" ++ css_tag ++ "</head><body>")
      else
        "<html><head>" ++ css_tag ++ "</head><body>" ++ htmlContent ++ "</body></html>"

/-- Successful response of `/generate-pdf` (main.py lines 159-166): raw bytes
plus media type and headers. -/
structure PdfBinaryResponse where
  content : List Nat
  media_type : String
  content_disposition : String
  content_length : String
deriving DecidableEq, Repr

/-- Body of the `try` block of `generate_pdf` (main.py lines 133-173): inject
the CSS, render, and serialize; any collaborator exception becomes a 500. -/
def generate_pdf_try (render : Renderer) (req : PDFRequest) :
    HandlerResult PdfBinaryResponse :=
  let html_content := inject_css req.htmlContent req.customCss
  match render html_content with
  | .ok pdf_bytes =>
    .ok { content := pdf_bytes
          media_type := "application/pdf"
          content_disposition := "attachment; filename=document.pdf"
          content_length := toString pdf_bytes.length }
  | .error e => .httpError 500 ("PDF generation failed: " ++ e)

/-- Handler of `POST /generate-pdf` (main.py lines 112-173).  The gate is
`if authorization and not verify_api_key(authorization)`. -/
def generate_pdf (render : Renderer) (api_key : String) (req : PDFRequest)
    (authorization : Option String) : HandlerResult PdfBinaryResponse :=
  if pyTruthy authorization && !(verify_api_key api_key authorization) then
    .httpError 401 "Invalid API key"
  else
    generate_pdf_try render req

/-- Successful response of `/generate-pdf-base64` (main.py lines 209-213). -/
structure PdfBase64Response where
  pdf : String
  size : Nat
  encoding : String
deriving DecidableEq, Repr

/-- The base64 alphabet of RFC 4648 used by Python `base64.b64encode`. -/
def b64Alphabet : List Char :=
  ['A', 'B', 'C', 'D', 'E', 'F', 'G', 'H', 'I', 'J', 'K', 'L', 'M',
   'N', 'O', 'P', 'Q', 'R', 'S', 'T', 'U', 'V', 'W', 'X', 'Y', 'Z',
   'a', 'b', 'c', 'd', 'e', 'f', 'g', 'h', 'i', 'j', 'k', 'l', 'm',
   'n', 'o', 'p', 'q', 'r', 's', 't', 'u', 'v', 'w', 'x', 'y', 'z',
   '0', '1', '2', '3', '4', '5', '6', '7', '8', '9', '+', '/']

/-- Character for a 6-bit group. -/
def b64Char (n : Nat) : Char :=
  b64Alphabet.getD n '?'

/-- Index of a character in the base64 alphabet. -/
def b64Index (c : Char) : Nat :=
  b64Alphabet.indexOf c

/-- Python `base64.b64encode` on a byte list: 3 bytes become 4 characters,
with `=` padding for a 1- or 2-byte tail. -/
def b64encode : List Nat → List Char
  | [] => []
  | [a] => [b64Char (a / 4), b64Char (a % 4 * 16), '=', '=']
  | [a, b] => [b64Char (a / 4), b64Char (a % 4 * 16 + b / 16), b64Char (b % 16 * 4), '=']
  | a :: b :: c :: rest =>
    b64Char (a / 4) :: b64Char (a % 4 * 16 + b / 16) ::
      b64Char (b % 16 * 4 + c / 64) :: b64Char (c % 64) :: b64encode rest

/-- Base64 decoding of a well-formed encoding (inverse of `b64encode`): a
quartet whose third character is `=` encodes one byte, one whose fourth
character is `=` encodes two bytes, and any other quartet encodes three. -/
def b64decode : List Char → List Nat
  | c1 :: c2 :: c3 :: c4 :: rest =>
    if c3 = '=' then [b64Index c1 * 4 + b64Index c2 / 16]
    else if c4 = '=' then
      [b64Index c1 * 4 + b64Index c2 / 16, b64Index c2 % 16 * 16 + b64Index c3 / 4]
    else
      (b64Index c1 * 4 + b64Index c2 / 16) :: (b64Index c2 % 16 * 16 + b64Index c3 / 4) ::
        (b64Index c3 % 4 * 64 + b64Index c4) :: b64decode rest
  | _ => []

/-- `base64.b64encode(pdf_bytes).decode("utf-8")`. -/
def bytesToBase64 (bytes : List Nat) : String :=
  String.mk (b64encode bytes)

/-- Body of the `try` block of `generate_pdf_base64` (main.py lines 191-220):
same injection and render, then base64 serialization. -/
def generate_pdf_base64_try (render : Renderer) (req : PDFRequest) :
    HandlerResult PdfBase64Response :=
  let html_content := inject_css req.htmlContent req.customCss
  match render html_content with
  | .ok pdf_bytes =>
    .ok { pdf := bytesToBase64 pdf_bytes
          size := pdf_bytes.length
          encoding := "base64" }
  | .error e => .httpError 500 ("PDF generation failed: " ++ e)

/-- Handler of `POST /generate-pdf-base64` (main.py lines 176-220), with the
same authentication gate as `generate_pdf`. -/
def generate_pdf_base64 (render : Renderer) (api_key : String) (req : PDFRequest)
    (authorization : Option String) : HandlerResult PdfBase64Response :=
  if pyTruthy authorization && !(verify_api_key api_key authorization) then
    .httpError 401 "Invalid API key"
  else
    generate_pdf_base64_try render req

/-- Body returned by `GET /health` (main.py lines 90-109). -/
inductive HealthBody where
  | healthy : (weasyprint : String) → (pdf_generation : String) → HealthBody
  | unhealthy : (error : String) → HealthBody
deriving DecidableEq, Repr

/-- Handler of `GET /health` (main.py lines 90-109): probe the collaborator on
a fixed snippet; both outcomes are returned as a plain 200 body. -/
def health_check (render : Renderer) : Nat × HealthBody :=
  match render "<html><body>Test</body></html>" with
  | .ok _ => (200, .healthy "functional" "working")
  | .error e => (200, .unhealthy e)

/-! ## Lemmas about `replaceAll` (Python `str.replace`) -/

theorem replaceAllFuel_nil (pat repl : List Char) (f : Nat) :
    replaceAllFuel pat repl f [] = [] := by
  cases f <;> rfl

theorem pat_length_pos_of_cond {pat : List Char} {c : Char} {rest : List Char}
    (h : (pat.isPrefixOf (c :: rest) && !pat.isEmpty) = true) :
    0 < pat.length ∧ pat.length ≤ rest.length + 1 := by
  rw [Bool.and_eq_true] at h
  obtain ⟨h1, h2⟩ := h
  have hne : pat ≠ [] := by
    simpa [List.isEmpty_eq_false] using h2
  have hp : pat <+: c :: rest := List.isPrefixOf_iff_prefix.mp h1
  have hlen := hp.length_le
  simp only [List.length_cons] at hlen
  exact ⟨List.length_pos.mpr hne, hlen⟩

theorem replaceAllFuel_congr (pat repl : List Char) :
    ∀ (f g : Nat) (l : List Char), l.length ≤ f → l.length ≤ g →
      replaceAllFuel pat repl f l = replaceAllFuel pat repl g l := by
  intro f
  induction f with
  | zero =>
    intro g l hf _
    have hl : l = [] := by
      cases l with
      | nil => rfl
      | cons c rest => simp at hf
    subst hl
    simp [replaceAllFuel_nil]
  | succ f ih =>
    intro g l hf hg
    cases l with
    | nil => simp [replaceAllFuel_nil]
    | cons c rest =>
      cases g with
      | zero => simp at hg
      | succ g' =>
        simp only [List.length_cons, Nat.add_le_add_iff_right] at hf hg
        by_cases hcond : (pat.isPrefixOf (c :: rest) && !pat.isEmpty) = true
        · obtain ⟨hpos, hle⟩ := pat_length_pos_of_cond hcond
          simp only [replaceAllFuel, hcond, if_true]
          congr 1
          apply ih
          · simp only [List.length_drop, List.length_cons]
            omega
          · simp only [List.length_drop, List.length_cons]
            omega
        · rw [Bool.not_eq_true] at hcond
          simp only [replaceAllFuel, hcond, Bool.false_eq_true, if_false]
          congr 1
          exact ih g' rest hf hg

theorem replaceAll_cons_pos (pat repl : List Char) (c : Char) (rest : List Char)
    (h : (pat.isPrefixOf (c :: rest) && !pat.isEmpty) = true) :
    replaceAll pat repl (c :: rest) =
      repl ++ replaceAll pat repl ((c :: rest).drop pat.length) := by
  obtain ⟨hpos, hle⟩ := pat_length_pos_of_cond h
  simp only [replaceAll, List.length_cons, replaceAllFuel, h, if_true]
  congr 1
  apply replaceAllFuel_congr
  · simp only [List.length_drop, List.length_cons]
    omega
  · exact Nat.le_refl _

theorem replaceAll_cons_neg (pat repl : List Char) (c : Char) (rest : List Char)
    (h : (pat.isPrefixOf (c :: rest) && !pat.isEmpty) = false) :
    replaceAll pat repl (c :: rest) = c :: replaceAll pat repl rest := by
  simp only [replaceAll, List.length_cons, replaceAllFuel, h, Bool.false_eq_true, if_false]

theorem containsSub_eq_true_iff (pat l : List Char) :
    containsSub pat l = true ↔ pat <:+: l := by
  induction l with
  | nil =>
    simp only [containsSub, List.isEmpty_iff, List.infix_nil]
  | cons c rest ih =>
    simp only [containsSub, Bool.or_eq_true, ih, List.isPrefixOf_iff_prefix]
    constructor
    · rintro (h | h)
      · exact h.isInfix
      · exact List.infix_cons h
    · intro h
      rcases List.infix_cons_iff.mp h with h' | h'
      · exact Or.inl h'
      · exact Or.inr h'

theorem replaceAll_of_no_occurrence (pat repl : List Char) :
    ∀ l : List Char, ¬ pat <:+: l → replaceAll pat repl l = l := by
  intro l
  induction l with
  | nil => intro _; rfl
  | cons c rest ih =>
    intro h
    have hpre : pat.isPrefixOf (c :: rest) = false := by
      rw [Bool.eq_false_iff]
      intro hp
      have hp2 := List.isPrefixOf_iff_prefix.mp hp
      exact h hp2.isInfix
    rw [replaceAll_cons_neg pat repl c rest (by simp [hpre])]
    rw [ih fun hi => h (List.infix_cons hi)]

theorem replaceAll_append_decompose (pat repl : List Char) (hp : pat ≠ []) :
    ∀ (a b : List Char),
      (∀ i < a.length, ¬ pat <+: (a ++ (pat ++ b)).drop i) →
      replaceAll pat repl (a ++ (pat ++ b)) = a ++ repl ++ replaceAll pat repl b := by
  intro a
  induction a with
  | nil =>
    intro b _
    cases pat with
    | nil => exact absurd rfl hp
    | cons p0 ps =>
      simp only [List.nil_append]
      have hshape : (p0 :: ps) ++ b = p0 :: (ps ++ b) := rfl
      rw [hshape, replaceAll_cons_pos _ _ _ _ ?cond]
      case cond =>
        rw [Bool.and_eq_true]
        constructor
        · rw [ List.isPrefixOf_iff_prefix, ← hshape]
          exact List.prefix_append _ _
        · simp
      have hdrop : (p0 :: (ps ++ b)).drop (p0 :: ps).length = b := by
        rw [← hshape]
        exact List.drop_left _ _
      rw [hdrop]
  | cons c a' ih =>
    intro b hfirst
    have h0 : ¬ pat <+: (c :: (a' ++ (pat ++ b))) := by
      have := hfirst 0 (by simp)
      simpa using this
    have hpre : pat.isPrefixOf (c :: (a' ++ (pat ++ b))) = false := by
      rw [Bool.eq_false_iff]
      intro hb
      have hb2 := List.isPrefixOf_iff_prefix.mp hb
      exact h0 hb2
    have hshape : (c :: a') ++ (pat ++ b) = c :: (a' ++ (pat ++ b)) := rfl
    rw [hshape, replaceAll_cons_neg _ _ _ _ (by simp [hpre])]
    rw [ih b ?shifted]
    case shifted =>
      intro i hi
      have := hfirst (i + 1) (by simpa using Nat.succ_lt_succ hi)
      simpa using this
    simp

/-! ## Lemmas about `pySplit` (Python `str.split()`) -/

theorem splitWSAux_space_skip (rest : List Char) :
    ∀ ws : List Char, (∀ c ∈ ws, isPySpace c = true) →
      splitWSAux (ws ++ rest) [] = splitWSAux rest [] := by
  intro ws
  induction ws with
  | nil => intro _; rfl
  | cons s ws' ih =>
    intro h
    have hs := h s (by simp)
    simp only [List.cons_append, splitWSAux, hs, if_true, List.isEmpty_nil]
    exact ih fun c hc => h c (by simp [hc])

theorem splitWSAux_word (rest : List Char) :
    ∀ (w acc : List Char), (∀ c ∈ w, isPySpace c = false) →
      splitWSAux (w ++ rest) acc = splitWSAux rest (w.reverse ++ acc) := by
  intro w
  induction w with
  | nil => intro acc _; simp
  | cons c w' ih =>
    intro acc h
    have hc := h c (by simp)
    simp only [List.cons_append, splitWSAux, hc, Bool.false_eq_true, if_false, List.append_eq]
    rw [ih (c :: acc) fun x hx => h x (by simp [hx])]
    congr 1
    simp

theorem splitWSAux_all_space (ws : List Char) (h : ∀ c ∈ ws, isPySpace c = true) :
    splitWSAux ws [] = [] := by
  have := splitWSAux_space_skip [] ws h
  simpa using this

theorem splitWSAux_sep (sp : Char) (rest acc : List Char) (hsp : isPySpace sp = true)
    (hacc : acc ≠ []) :
    splitWSAux (sp :: rest) acc = acc.reverse :: splitWSAux rest [] := by
  have : acc.isEmpty = false := List.isEmpty_eq_false.mpr hacc
  simp [splitWSAux, hsp, this]

theorem splitWSAux_trailing : ∀ (ws acc : List Char),
    (∀ c ∈ ws, isPySpace c = true) → acc ≠ [] →
    splitWSAux ws acc = [acc.reverse] := by
  intro ws
  induction ws with
  | nil =>
    intro acc _ hacc
    have : acc.isEmpty = false := List.isEmpty_eq_false.mpr hacc
    simp [splitWSAux, this]
  | cons s ws' ih =>
    intro acc h hacc
    have hs := h s (by simp)
    rw [splitWSAux_sep s ws' acc hs hacc]
    rw [splitWSAux_all_space ws' fun c hc => h c (by simp [hc])]

theorem pySplit_two_words (w1 w2 ws0 ws1 ws2 : List Char) (sp : Char)
    (hw1 : ∀ c ∈ w1, isPySpace c = false) (hw1ne : w1 ≠ [])
    (hw2 : ∀ c ∈ w2, isPySpace c = false) (hw2ne : w2 ≠ [])
    (h0 : ∀ c ∈ ws0, isPySpace c = true) (hsp : isPySpace sp = true)
    (h1 : ∀ c ∈ ws1, isPySpace c = true) (h2 : ∀ c ∈ ws2, isPySpace c = true) :
    pySplit (String.mk (ws0 ++ (w1 ++ (sp :: (ws1 ++ (w2 ++ ws2)))))) =
      [String.mk w1, String.mk w2] := by
  show ((splitWSAux (ws0 ++ (w1 ++ (sp :: (ws1 ++ (w2 ++ ws2))))) []).map fun l => String.mk l) = _
  rw [splitWSAux_space_skip _ ws0 h0]
  rw [splitWSAux_word _ w1 [] hw1]
  rw [splitWSAux_sep sp _ _ hsp (by simp [hw1ne])]
  rw [splitWSAux_space_skip _ ws1 h1]
  rw [splitWSAux_word _ w2 [] hw2]
  rw [splitWSAux_trailing ws2 _ h2 (by simp [hw2ne])]
  simp

/-! ## Lemmas about base64 -/

theorem b64Index_b64Char (n : Nat) (h : n < 64) : b64Index (b64Char n) = n := by
  have key : ∀ m : Fin 64, b64Index (b64Char m.val) = m.val := by decide
  exact key ⟨n, h⟩

theorem b64Char_ne_pad (n : Nat) (h : n < 64) : ¬ b64Char n = '=' := by
  have key : ∀ m : Fin 64, ¬ b64Char m.val = '=' := by decide
  exact key ⟨n, h⟩

theorem b64decode_encode : ∀ l : List Nat, (∀ x ∈ l, x < 256) →
    b64decode (b64encode l) = l
  | [], _ => rfl
  | [a], h => by
    have ha : a < 256 := h a (by simp)
    show b64decode [b64Char (a / 4), b64Char (a % 4 * 16), '=', '='] = [a]
    rw [b64decode, if_pos rfl]
    rw [b64Index_b64Char _ (by omega), b64Index_b64Char _ (by omega)]
    simp only [List.cons.injEq, and_true]
    omega
  | [a, b], h => by
    have ha : a < 256 := h a (by simp)
    have hb : b < 256 := h b (by simp)
    show b64decode
      [b64Char (a / 4), b64Char (a % 4 * 16 + b / 16), b64Char (b % 16 * 4), '='] = [a, b]
    rw [b64decode, if_neg (b64Char_ne_pad _ (by omega)), if_pos rfl]
    rw [b64Index_b64Char _ (by omega), b64Index_b64Char _ (by omega),
        b64Index_b64Char _ (by omega)]
    simp only [List.cons.injEq, and_true]
    omega
  | a :: b :: c :: rest, h => by
    have ha : a < 256 := h a (by simp)
    have hb : b < 256 := h b (by simp)
    have hc : c < 256 := h c (by simp)
    have ih := b64decode_encode rest fun x hx => h x (by simp [hx])
    show b64decode (b64Char (a / 4) :: b64Char (a % 4 * 16 + b / 16) ::
      b64Char (b % 16 * 4 + c / 64) :: b64Char (c % 64) :: b64encode rest) = a :: b :: c :: rest
    rw [b64decode, if_neg (b64Char_ne_pad _ (by omega)), if_neg (b64Char_ne_pad _ (by omega))]
    rw [b64Index_b64Char _ (by omega), b64Index_b64Char _ (by omega),
        b64Index_b64Char _ (by omega), b64Index_b64Char _ (by omega)]
    rw [ih]
    simp only [List.cons.injEq]
    refine ⟨by omega, by omega, by omega, trivial⟩

/-! ## Small bridging lemmas -/

theorem data_mk (l : List Char) : (String.mk l).data = l := rfl

theorem mk_data (s : String) : String.mk s.data = s := by
  cases s
  rfl

theorem data_ne_nil_of_ne_empty (s : String) (h : s ≠ "") : s.data ≠ [] := by
  intro hd
  exact h (String.ext (hd.trans rfl))

theorem pyTruthy_some_true (s : String) (h : s ≠ "") : pyTruthy (some s) = true := by
  simp [pyTruthy, h]

/-- If the header whitespace-splits into exactly the scheme and the configured
key, with the scheme lowercasing to `bearer`, the key check accepts. -/
theorem verify_api_key_true_of (api_key s scheme : String) (hne : s ≠ "")
    (hsplit : pySplit s = [scheme, api_key]) (hlower : pyLower scheme = "bearer") :
    verify_api_key api_key (some s) = true := by
  simp only [verify_api_key, if_neg hne, hsplit]
  rw [if_neg (by simp [hlower])]
  simp [hmac_compare_digest]

/-! ## Claim C1 -/

/-- C1 (amended): for every HTML string of the form `a ++ "</head>" ++ b` in
which no occurrence of `"</head>"` starts inside `a` and none occurs in `b`
(so the substring occurs exactly once), and every non-empty `customCss`, the
transform inserts `"<style>" ++ customCss ++ "</style>"` immediately before
that occurrence and leaves every other byte unchanged.  The original claim —
insertion before the *first* occurrence only, later occurrences untouched —
is false, because Python `str.replace` rewrites every occurrence (see the
counterexample). -/
theorem C1_theorem (a b css : String) (hcss : css ≠ "")
    (hfirst : ∀ i < a.data.length,
      ¬ (("</head>" : String).data <+: ((a.data ++ (("</head>" : String).data ++ b.data)).drop i)))
    (hb : ¬ ("</head>" : String).data <:+: b.data) :
    inject_css (a ++ "</head>" ++ b) (some css) =
      a ++ "<style>" ++ css ++ "</style>" ++ "</head>" ++ b := by
  have hdata : (a ++ "</head>" ++ b).data =
      a.data ++ (("</head>" : String).data ++ b.data) := by
    simp [String.data_append]
  have hcon : pyContains (a ++ "</head>" ++ b) "</head>" = true := by
    unfold pyContains
    rw [containsSub_eq_true_iff, hdata]
    exact ⟨a.data, b.data, by simp⟩
  simp only [inject_css, hcss, hcon, if_true, if_false, ite_false]
  apply String.ext
  simp only [pyReplace, data_mk, hdata]
  rw [replaceAll_append_decompose _ _ (by decide) a.data b.data hfirst]
  rw [replaceAll_of_no_occurrence _ _ _ hb]
  simp [String.data_append]

/-- C1 counterexample: with two occurrences of `"</head>"`, the code inserts
the style tag before both of them, not only before the first. -/
theorem C1_counterexample :
    inject_css "</head></head>" (some "x") =
      "<style>x</style></head><style>x</style></head>" ∧
    ((inject_css "</head></head>" (some "x") == "<style>x</style></head></head>") = false) := by
  constructor
  · decide
  · decide

/-- C1 witness: the amended theorem applied at a concrete single-occurrence
document. -/
theorem C1_witness :
    inject_css ("<html><head>" ++ "</head>" ++ "<body>Hi</body></html>") (some "p{color:red}") =
      "<html><head>" ++ "<style>" ++ "p{color:red}" ++ "</style>" ++ "</head>" ++
        "<body>Hi</body></html>" :=
  C1_theorem "<html><head>" "<body>Hi</body></html>" "p{color:red}"
    (by decide) (by decide) (by decide)

/-! ## Claim C2 -/

/-- C2 (amended): for every HTML string of the form `a ++ "<body>" ++ b` that
does not contain `"</head>"`, in which no occurrence of `"<body>"` starts
inside `a` and none occurs in `b` (so `"<body>"` occurs exactly once), and
every non-empty `customCss`, the transform inserts
`"<head><style>" ++ customCss ++ "</style></head>"` immediately before that
occurrence and leaves the rest unchanged.  The original claim — insertion
before the *first* occurrence only, later occurrences untouched — is false,
because Python `str.replace` rewrites every occurrence (see the
counterexample). -/
theorem C2_theorem (a b css : String) (hcss : css ≠ "")
    (hnohead : pyContains (a ++ "<body>" ++ b) "</head>" = false)
    (hfirst : ∀ i < a.data.length,
      ¬ (("<body>" : String).data <+: ((a.data ++ (("<body>" : String).data ++ b.data)).drop i)))
    (hb : ¬ ("<body>" : String).data <:+: b.data) :
    inject_css (a ++ "<body>" ++ b) (some css) =
      a ++ "<head><style>" ++ css ++ "</style></head>" ++ "<body>" ++ b := by
  have hdata : (a ++ "<body>" ++ b).data =
      a.data ++ (("<body>" : String).data ++ b.data) := by
    simp [String.data_append]
  have hcon : pyContains (a ++ "<body>" ++ b) "<body>" = true := by
    unfold pyContains
    rw [containsSub_eq_true_iff, hdata]
    exact ⟨a.data, b.data, by simp⟩
  simp only [inject_css, hcss, hnohead, hcon, if_true, if_false, ite_false,
    Bool.false_eq_true]
  apply String.ext
  simp only [pyReplace, data_mk, hdata]
  rw [replaceAll_append_decompose _ _ (by decide) a.data b.data hfirst]
  rw [replaceAll_of_no_occurrence _ _ _ hb]
  simp [String.data_append]

/-- C2 counterexample: with two occurrences of `"<body>"`, the code inserts
the synthesized head block before both of them, not only before the first. -/
theorem C2_counterexample :
    inject_css "<body><body>" (some "x") =
      "<head><style>x</style></head><body><head><style>x</style></head><body>" ∧
    ((inject_css "<body><body>" (some "x") ==
      "<head><style>x</style></head><body><body>") = false) := by
  constructor
  · decide
  · decide

/-- C2 witness: the amended theorem applied to the spec's own example
`<body>Hi</body>` with CSS `b{}`. -/
theorem C2_witness :
    inject_css ("" ++ "<body>" ++ "Hi</body>") (some "b{}") =
      "" ++ "<head><style>" ++ "b{}" ++ "</style></head>" ++ "<body>" ++ "Hi</body>" :=
  C2_theorem "" "Hi</body>" "b{}" (by decide) (by decide) (by decide) (by decide)

/-! ## Claim C3 -/

/-- C3 (amended): for every request to either endpoint whose Authorization
header is present and **non-empty** but malformed (its whitespace-split does
not have exactly two parts, or the first part lowercased is not `bearer`) or
whose token differs from the configured secret, the handler returns 401 with
detail `"Invalid API key"` independently of the renderer (so the rendering
collaborator is never invoked).  The original claim is false for the
present-but-empty header `""`, which Python treats as falsy and lets through
(see the counterexample). -/
theorem C3_theorem (render render2 : Renderer) (api_key : String)
    (req req2 : PDFRequest) (s : String) (hs : s ≠ "")
    (hbad : (pySplit s).length ≠ 2 ∨ pyLower ((pySplit s).headD "") ≠ "bearer" ∨
      (pySplit s).getD 1 "" ≠ api_key) :
    generate_pdf render api_key req (some s) = .httpError 401 "Invalid API key" ∧
    generate_pdf_base64 render2 api_key req2 (some s) = .httpError 401 "Invalid API key" := by
  have hverify : verify_api_key api_key (some s) = false := by
    simp only [verify_api_key, if_neg hs]
    rcases hsp : pySplit s with _ | ⟨p0, _ | ⟨p1, _ | ⟨p2, t⟩⟩⟩
    · rfl
    · rfl
    · rw [hsp] at hbad
      show (if pyLower p0 ≠ "bearer" then false else hmac_compare_digest p1 api_key) = false
      rcases hbad with hlen | hsch | htok
      · simp at hlen
      · simp only [List.headD_cons] at hsch
        rw [if_pos hsch]
      · by_cases hsch2 : pyLower p0 ≠ "bearer"
        · rw [if_pos hsch2]
        · rw [if_neg hsch2]
          simp only [List.getD_cons_succ, List.getD_cons_zero] at htok
          simp [hmac_compare_digest, htok]
    · rfl
  have htr : pyTruthy (some s) = true := pyTruthy_some_true s hs
  constructor
  · simp only [generate_pdf, htr, hverify, Bool.not_false, Bool.and_true, if_true]
  · simp only [generate_pdf_base64, htr, hverify, Bool.not_false, Bool.and_true, if_true]

/-- C3 counterexample: the header `""` is present and malformed (its
whitespace-split has zero parts), yet the request is treated as authorized
and the collaborator's output is returned. -/
theorem C3_counterexample :
    generate_pdf (fun _ => .ok [1, 2, 3]) "secret-key" ⟨"<p>hi</p>", none⟩ (some "") =
      .ok { content := [1, 2, 3], media_type := "application/pdf",
            content_disposition := "attachment; filename=document.pdf",
            content_length := "3" } ∧
    generate_pdf_base64 (fun _ => .ok [1, 2, 3]) "secret-key" ⟨"<p>hi</p>", none⟩ (some "") =
      .ok { pdf := "AQID", size := 3, encoding := "base64" } := by
  constructor
  · decide
  · decide

/-- C3 witness: a wrong bearer token is rejected with 401 on both endpoints. -/
theorem C3_witness :
    generate_pdf (fun _ => .ok [1]) "right-key" ⟨"<p>a</p>", none⟩ (some "Bearer wrong-key") =
      .httpError 401 "Invalid API key" ∧
    generate_pdf_base64 (fun _ => .ok [1]) "right-key" ⟨"<p>a</p>", none⟩
      (some "Bearer wrong-key") = .httpError 401 "Invalid API key" :=
  C3_theorem (fun _ => .ok [1]) (fun _ => .ok [1]) "right-key" ⟨"<p>a</p>", none⟩
    ⟨"<p>a</p>", none⟩ "Bearer wrong-key" (by decide) (by decide)

/-! ## Claim C4 -/

/-- C4: a request carrying no Authorization header at all is treated as
authorized on both endpoints: the handler proceeds to the CSS transform and
the render call, and the absence of the header alone never produces a 401. -/
theorem C4_theorem (render : Renderer) (api_key : String) (req : PDFRequest) :
    generate_pdf render api_key req none = generate_pdf_try render req ∧
    generate_pdf_base64 render api_key req none = generate_pdf_base64_try render req ∧
    (∀ detail, generate_pdf render api_key req none ≠ .httpError 401 detail) ∧
    (∀ detail, generate_pdf_base64 render api_key req none ≠ .httpError 401 detail) := by
  refine ⟨rfl, rfl, ?_, ?_⟩
  · intro detail h
    cases hr : render (inject_css req.htmlContent req.customCss) with
    | ok bytes =>
      simp [generate_pdf, generate_pdf_try, pyTruthy, hr] at h
    | error e =>
      simp [generate_pdf, generate_pdf_try, pyTruthy, hr] at h
  · intro detail h
    cases hr : render (inject_css req.htmlContent req.customCss) with
    | ok bytes =>
      simp [generate_pdf_base64, generate_pdf_base64_try, pyTruthy, hr] at h
    | error e =>
      simp [generate_pdf_base64, generate_pdf_base64_try, pyTruthy, hr] at h

/-- C4 witness: the theorem instantiated at a concrete request, renderer and
detail string. -/
theorem C4_witness :
    generate_pdf (fun _ => .ok [9]) "k" ⟨"<p>a</p>", none⟩ none =
      generate_pdf_try (fun _ => .ok [9]) ⟨"<p>a</p>", none⟩ ∧
    generate_pdf (fun _ => .ok [9]) "k" ⟨"<p>a</p>", none⟩ none ≠
      .httpError 401 "Invalid API key" :=
  ⟨(C4_theorem (fun _ => .ok [9]) "k" ⟨"<p>a</p>", none⟩).1,
   (C4_theorem (fun _ => .ok [9]) "k" ⟨"<p>a</p>", none⟩).2.2.1 "Invalid API key"⟩

/-! ## Claim C5 -/

/-- C5: for identical input (htmlContent, customCss, Authorization header) and
a fixed deterministic rendering collaborator producing byte values, the two
endpoints make the same authentication decision and the same transform:
either both fail with the same status and detail, or both succeed, and then
the base64 decoding of the `pdf` field equals the raw byte body of
`/generate-pdf` and the `size` field equals that body's length. -/
theorem C5_theorem (render : Renderer) (api_key : String) (req : PDFRequest)
    (auth : Option String)
    (hbytes : ∀ s bytes, render s = .ok bytes → ∀ x ∈ bytes, x < 256) :
    (∃ r r64, generate_pdf render api_key req auth = .ok r ∧
      generate_pdf_base64 render api_key req auth = .ok r64 ∧
      b64decode r64.pdf.data = r.content ∧ r64.size = r.content.length) ∨
    (∃ st d, generate_pdf render api_key req auth = .httpError st d ∧
      generate_pdf_base64 render api_key req auth = .httpError st d) := by
  by_cases hgate : (pyTruthy auth && !(verify_api_key api_key auth)) = true
  · right
    refine ⟨401, "Invalid API key", ?_, ?_⟩
    · simp only [generate_pdf, hgate, if_true]
    · simp only [generate_pdf_base64, hgate, if_true]
  · have e1 : generate_pdf render api_key req auth = generate_pdf_try render req := by
      simp only [generate_pdf]
      rw [if_neg hgate]
    have e2 : generate_pdf_base64 render api_key req auth =
        generate_pdf_base64_try render req := by
      simp only [generate_pdf_base64]
      rw [if_neg hgate]
    cases hr : render (inject_css req.htmlContent req.customCss) with
    | ok bytes =>
      left
      refine ⟨{ content := bytes, media_type := "application/pdf",
                content_disposition := "attachment; filename=document.pdf",
                content_length := toString bytes.length },
              { pdf := bytesToBase64 bytes, size := bytes.length, encoding := "base64" },
              ?_, ?_, ?_, rfl⟩
      · rw [e1]
        simp only [generate_pdf_try, hr]
      · rw [e2]
        simp only [generate_pdf_base64_try, hr]
      · exact b64decode_encode bytes (hbytes _ bytes hr)
    | error e =>
      right
      refine ⟨500, "PDF generation failed: " ++ e, ?_, ?_⟩
      · rw [e1]
        simp only [generate_pdf_try, hr]
      · rw [e2]
        simp only [generate_pdf_base64_try, hr]

/-- C5 witness: the theorem applied at a concrete request and a renderer that
returns the bytes of `%PDF`. -/
theorem C5_witness :
    (∃ r r64,
      generate_pdf (fun _ => Except.ok [37, 80, 68, 70]) "k" ⟨"<p>x</p>", none⟩ none = .ok r ∧
      generate_pdf_base64 (fun _ => Except.ok [37, 80, 68, 70]) "k" ⟨"<p>x</p>", none⟩ none =
        .ok r64 ∧
      b64decode r64.pdf.data = r.content ∧ r64.size = r.content.length) ∨
    (∃ st d,
      generate_pdf (fun _ => Except.ok [37, 80, 68, 70]) "k" ⟨"<p>x</p>", none⟩ none =
        .httpError st d ∧
      generate_pdf_base64 (fun _ => Except.ok [37, 80, 68, 70]) "k" ⟨"<p>x</p>", none⟩ none =
        .httpError st d) :=
  C5_theorem (fun _ => Except.ok [37, 80, 68, 70]) "k" ⟨"<p>x</p>", none⟩ none
    (by
      intro s bytes h x hx
      injection h with h'
      subst h'
      simp at hx
      omega)

/-! ## Claim C6 -/

/-- C6: whenever the rendering collaborator raises on the transformed HTML of
an authorized request, both handlers return exactly
`httpError 500 ("PDF generation failed: " ++ e)` — an error response carrying
no PDF bytes. -/
theorem C6_theorem (render : Renderer) (api_key : String) (req : PDFRequest)
    (auth : Option String) (e : String)
    (hauth : (pyTruthy auth && !(verify_api_key api_key auth)) = false)
    (hfail : render (inject_css req.htmlContent req.customCss) = .error e) :
    generate_pdf render api_key req auth = .httpError 500 ("PDF generation failed: " ++ e) ∧
    generate_pdf_base64 render api_key req auth =
      .httpError 500 ("PDF generation failed: " ++ e) := by
  constructor
  · simp only [generate_pdf, hauth, Bool.false_eq_true, if_false, generate_pdf_try, hfail]
  · simp only [generate_pdf_base64, hauth, Bool.false_eq_true, if_false,
      generate_pdf_base64_try, hfail]

/-- C6 witness: the theorem applied to a renderer that always raises `boom`. -/
theorem C6_witness :
    generate_pdf (fun _ => Except.error "boom") "k" ⟨"<p>x</p>", none⟩ none =
      .httpError 500 ("PDF generation failed: " ++ "boom") ∧
    generate_pdf_base64 (fun _ => Except.error "boom") "k" ⟨"<p>x</p>", none⟩ none =
      .httpError 500 ("PDF generation failed: " ++ "boom") :=
  C6_theorem (fun _ => Except.error "boom") "k" ⟨"<p>x</p>", none⟩ none "boom"
    (by decide) rfl

/-! ## Claim C7 -/

/-- Splitting `scheme ++ " " ++ key` on whitespace yields the two words, for
non-empty whitespace-free `scheme` and `key`. -/
theorem pySplit_scheme_space_key (scheme api_key : String)
    (hsch_ne : scheme ≠ "") (hsch_ws : ∀ c ∈ scheme.data, isPySpace c = false)
    (hkey_ne : api_key ≠ "") (hkey_ws : ∀ c ∈ api_key.data, isPySpace c = false) :
    pySplit (scheme ++ " " ++ api_key) = [scheme, api_key] := by
  have hshape : scheme ++ " " ++ api_key =
      String.mk ([] ++ (scheme.data ++ (' ' :: ([] ++ (api_key.data ++ []))))) := by
    apply String.ext
    simp [String.data_append, data_mk]
  rw [hshape]
  rw [pySplit_two_words scheme.data api_key.data [] [] [] ' '
    hsch_ws (data_ne_nil_of_ne_empty _ hsch_ne)
    hkey_ws (data_ne_nil_of_ne_empty _ hkey_ne)
    (by simp) (by decide) (by simp) (by simp)]

/-- C7: a header consisting of the scheme keyword (any casing that lowercases
to `bearer`) a space, and the configured secret (both words non-empty and
whitespace-free) passes the authentication check, and both handlers proceed
to the transform and render phase. -/
theorem C7_theorem (render render2 : Renderer) (req req2 : PDFRequest)
    (api_key scheme : String)
    (hkey_ne : api_key ≠ "") (hkey_ws : ∀ c ∈ api_key.data, isPySpace c = false)
    (hsch_ne : scheme ≠ "") (hsch_ws : ∀ c ∈ scheme.data, isPySpace c = false)
    (hlower : pyLower scheme = "bearer") :
    verify_api_key api_key (some (scheme ++ " " ++ api_key)) = true ∧
    generate_pdf render api_key req (some (scheme ++ " " ++ api_key)) =
      generate_pdf_try render req ∧
    generate_pdf_base64 render2 api_key req2 (some (scheme ++ " " ++ api_key)) =
      generate_pdf_base64_try render2 req2 := by
  have hne : scheme ++ " " ++ api_key ≠ "" := by
    intro h
    have hd := congrArg String.data h
    simp [String.data_append] at hd
  have hv := verify_api_key_true_of api_key _ scheme hne
    (pySplit_scheme_space_key scheme api_key hsch_ne hsch_ws hkey_ne hkey_ws) hlower
  refine ⟨hv, ?_, ?_⟩
  · simp only [generate_pdf, hv, Bool.not_true, Bool.and_false, Bool.false_eq_true, if_false]
  · simp only [generate_pdf_base64, hv, Bool.not_true, Bool.and_false, Bool.false_eq_true,
      if_false]

/-- C7 witness: the theorem applied with the uppercase scheme `BEARER` and a
concrete token. -/
theorem C7_witness :
    verify_api_key "tok-123" (some ("BEARER" ++ " " ++ "tok-123")) = true ∧
    generate_pdf (fun _ => Except.ok [7]) "tok-123" ⟨"<p>a</p>", none⟩
      (some ("BEARER" ++ " " ++ "tok-123")) =
      generate_pdf_try (fun _ => Except.ok [7]) ⟨"<p>a</p>", none⟩ ∧
    generate_pdf_base64 (fun _ => Except.ok [7]) "tok-123" ⟨"<p>a</p>", none⟩
      (some ("BEARER" ++ " " ++ "tok-123")) =
      generate_pdf_base64_try (fun _ => Except.ok [7]) ⟨"<p>a</p>", none⟩ :=
  C7_theorem (fun _ => Except.ok [7]) (fun _ => Except.ok [7]) ⟨"<p>a</p>", none⟩
    ⟨"<p>a</p>", none⟩ "tok-123" "BEARER" (by decide) (by decide) (by decide) (by decide)
    (by decide)

/-! ## Claim C8 -/

/-- C8: for HTML containing neither `"</head>"` nor `"<body>"` and non-empty
CSS, the transform wraps the original HTML unmodified in a synthesized
document shell with the style tag in a new head. -/
theorem C8_theorem (html css : String) (hcss : css ≠ "")
    (hhead : pyContains html "</head>" = false)
    (hbody : pyContains html "<body>" = false) :
    inject_css html (some css) =
      "<html><head><style>" ++ css ++ "</style></head><body>" ++ html ++ "</body></html>" := by
  simp only [inject_css, hcss, hhead, hbody, Bool.false_eq_true, if_false, ite_false]
  apply String.ext
  simp [String.data_append]

/-- C8 witness: the theorem applied to the spec's own example, the bare
fragment `Hello` with CSS `x{}`. -/
theorem C8_witness :
    inject_css "Hello" (some "x{}") =
      "<html><head><style>" ++ "x{}" ++ "</style></head><body>" ++ "Hello" ++ "</body></html>" :=
  C8_theorem "Hello" "x{}" (by decide) (by decide) (by decide)

/-! ## Claim C9 -/

/-- C9 (amended): for every behavior of the rendering collaborator on the
fixed probe HTML, `/health` returns HTTP status 200; if the probe render
raises with message `e` the body is `unhealthy` with error field exactly `e`
(hence non-empty whenever the collaborator's message is non-empty); if it
succeeds the body is `healthy` with the `weasyprint` and `pdf_generation`
fields.  The original claim additionally asserted the error text is always
non-empty, which fails for a collaborator raising with an empty message (see
the counterexample). -/
theorem C9_theorem (render : Renderer) :
    (health_check render).1 = 200 ∧
    (∀ e, render "<html><body>Test</body></html>" = .error e →
      health_check render = (200, .unhealthy e)) ∧
    (∀ bytes, render "<html><body>Test</body></html>" = .ok bytes →
      health_check render = (200, .healthy "functional" "working")) := by
  refine ⟨?_, ?_, ?_⟩
  · cases hr : render "<html><body>Test</body></html>" <;> simp [health_check, hr]
  · intro e he
    simp [health_check, he]
  · intro bytes hb
    simp [health_check, hb]

/-- C9 counterexample: a collaborator raising with an empty message makes the
body's error field empty, contradicting the claimed non-empty error text. -/
theorem C9_counterexample :
    health_check (fun _ => Except.error "") = (200, HealthBody.unhealthy "") := rfl

/-- C9 witness: the theorem applied to a collaborator that raises with the
message `renderer down`. -/
theorem C9_witness :
    (health_check (fun _ => Except.error "renderer down")).1 = 200 ∧
    health_check (fun _ => Except.error "renderer down") =
      (200, HealthBody.unhealthy "renderer down") :=
  ⟨(C9_theorem (fun _ => Except.error "renderer down")).1,
   (C9_theorem (fun _ => Except.error "renderer down")).2.1 "renderer down" rfl⟩

/-! ## Claim C10 -/

/-- C10: the Authorization header is tokenized by splitting on arbitrary runs
of whitespace with leading and trailing whitespace discarded, so any header
made of the scheme keyword and the correct token separated by one or more
whitespace characters of any kind, possibly with surrounding whitespace, is
authorized. -/
theorem C10_theorem (api_key scheme : String) (ws0 ws1 ws2 : List Char) (sp : Char)
    (hkey_ne : api_key ≠ "") (hkey_ws : ∀ c ∈ api_key.data, isPySpace c = false)
    (hsch_ne : scheme ≠ "") (hsch_ws : ∀ c ∈ scheme.data, isPySpace c = false)
    (hlower : pyLower scheme = "bearer")
    (h0 : ∀ c ∈ ws0, isPySpace c = true) (hsp : isPySpace sp = true)
    (h1 : ∀ c ∈ ws1, isPySpace c = true) (h2 : ∀ c ∈ ws2, isPySpace c = true) :
    verify_api_key api_key
      (some (String.mk (ws0 ++ (scheme.data ++ (sp :: (ws1 ++ (api_key.data ++ ws2))))))) =
      true := by
  have hsplit : pySplit
      (String.mk (ws0 ++ (scheme.data ++ (sp :: (ws1 ++ (api_key.data ++ ws2)))))) =
      [scheme, api_key] := by
    rw [pySplit_two_words scheme.data api_key.data ws0 ws1 ws2 sp
      hsch_ws (data_ne_nil_of_ne_empty _ hsch_ne)
      hkey_ws (data_ne_nil_of_ne_empty _ hkey_ne) h0 hsp h1 h2]
  have hne : String.mk (ws0 ++ (scheme.data ++ (sp :: (ws1 ++ (api_key.data ++ ws2))))) ≠ "" := by
    intro h
    have hd := congrArg String.data h
    simp [data_mk] at hd
  exact verify_api_key_true_of api_key _ scheme hne hsplit hlower

/-- C10 witness: a header with leading space, tab-and-newline separation and
trailing spaces is accepted. -/
theorem C10_witness :
    verify_api_key "k1"
      (some (String.mk ([' '] ++ (("Bearer" : String).data ++
        ('\t' :: (['\n'] ++ (("k1" : String).data ++ [' ', ' '] ))))))) = true :=
  C10_theorem "k1" "Bearer" [' '] ['\n'] [' ', ' '] '\t' (by decide) (by decide) (by decide)
    (by decide) (by decide) (by decide) (by decide) (by decide) (by decide)

